import Mathlib

/-!
Verification development for the `rphys` swarm-simulation core.

The source is embedded shallowly over exact rationals (ℚ): the spec's
numerical policy demands only algebraic equivalence up to IEEE-754
rounding, so every `f64` of the source is modelled by a `ℚ` and every
arithmetic expression is translated literally.  Transcendental
functions (`cos`, `sin`, `π`) that the source evaluates on `f64` are
taken as explicit function parameters, so all definitions stay
executable.
-/

/- The Batteries rational arithmetic is `@[irreducible]`; concrete
evaluation of the embedded code by `decide` needs it unfolded. -/
set_option allowUnsafeReducibility true in
attribute [semireducible] Rat.add Rat.sub Rat.neg Rat.mul Rat.div Rat.inv Rat.ofScientific

/-- 3-vector of rationals, mirroring `nalgebra::Vector3<f64>`. -/
structure Vec3 where
  x : ℚ
  y : ℚ
  z : ℚ
deriving DecidableEq, Repr

namespace Vec3

def zero : Vec3 := ⟨0, 0, 0⟩

instance : Add Vec3 := ⟨fun a b => ⟨a.x + b.x, a.y + b.y, a.z + b.z⟩⟩

instance : Sub Vec3 := ⟨fun a b => ⟨a.x - b.x, a.y - b.y, a.z - b.z⟩⟩

instance : SMul ℚ Vec3 := ⟨fun c v => ⟨c * v.x, c * v.y, c * v.z⟩⟩

/-- Componentwise division by a scalar (`Vector3 / f64`). -/
instance : HDiv Vec3 ℚ Vec3 := ⟨fun v c => ⟨v.x / c, v.y / c, v.z / c⟩⟩

/-- Dot product `a.dot(&b)`. -/
def dot (a b : Vec3) : ℚ := a.x * b.x + a.y * b.y + a.z * b.z

theorem add_def (a b : Vec3) : a + b = ⟨a.x + b.x, a.y + b.y, a.z + b.z⟩ := rfl

theorem sub_def (a b : Vec3) : a - b = ⟨a.x - b.x, a.y - b.y, a.z - b.z⟩ := rfl

theorem smul_def (c : ℚ) (v : Vec3) : c • v = ⟨c * v.x, c * v.y, c * v.z⟩ := rfl

theorem div_def (v : Vec3) (c : ℚ) : v / c = ⟨v.x / c, v.y / c, v.z / c⟩ := rfl

end Vec3

/-- One `(x,y,z,vx,vy,vz,t)` trajectory record (`[f64; 7]` in `src/sim.rs`). -/
structure TrajSample where
  px : ℚ
  py : ℚ
  pz : ℚ
  vx : ℚ
  vy : ℚ
  vz : ℚ
  t : ℚ
deriving DecidableEq, Repr

/-- SoA state of `Simulator` (`src/sim.rs`).  The RK4 work buffers of the
source are allocation caches with no observable content and are omitted. -/
structure Simulator where
  x : List Vec3
  v : List Vec3
  mass : List ℚ
  drag : List ℚ
  groups : List ℕ
  forces : List Vec3
  traj : List (Option (List TrajSample))
  time : ℚ
  dt : ℚ
deriving DecidableEq, Repr

namespace Simulator

/-- `Simulator::set_force`: `self.forces[i] = f`.  (The source indexes and
would panic out of bounds; `List.set` is then a no-op, which no claim
exercises.) -/
def setForce (s : Simulator) (i : ℕ) (f : Vec3) : Simulator :=
  { s with forces := s.forces.set i f }

/-- `ParticleModel::flatten_to_plane` (`src/models/particles.rs`): zero the
z component of every position and velocity.  Forces are not touched. -/
def flattenToPlane (s : Simulator) : Simulator :=
  { s with
    x := s.x.map fun p => { p with z := 0 }
    v := s.v.map fun w => { w with z := 0 } }

end Simulator

/-- The four RK4 stages for a single agent as performed by
`Simulator::step` (`src/sim.rs` lines 198-259).  The external force `f`
is the same in all four stage accelerations, because the source copies
`self.forces` into the stage buffer before every stage; drag is
re-evaluated at each intermediate velocity.  The source interleaves the
stage loops over all agents, but each agent's arithmetic is independent,
so the per-agent computation is exactly this function. -/
def rk4Step (dt : ℚ) (f : Vec3) (m drag : ℚ) (x v : Vec3) : Vec3 × Vec3 :=
  let k1x := v
  let k1v := (f - drag • v) / m
  let _tmpx1 := x + ((1 : ℚ) / 2 * dt) • k1x
  let tmpv1 := v + ((1 : ℚ) / 2 * dt) • k1v
  let k2x := tmpv1
  let k2v := (f - drag • tmpv1) / m
  let _tmpx2 := x + ((1 : ℚ) / 2 * dt) • k2x
  let tmpv2 := v + ((1 : ℚ) / 2 * dt) • k2v
  let k3x := tmpv2
  let k3v := (f - drag • tmpv2) / m
  let _tmpx3 := x + dt • k3x
  let tmpv3 := v + dt • k3v
  let k4x := tmpv3
  let k4v := (f - drag • tmpv3) / m
  (x + (dt • (k1x + (2 : ℚ) • k2x + (2 : ℚ) • k3x + k4x)) / (6 : ℚ),
   v + (dt • (k1v + (2 : ℚ) • k2v + (2 : ℚ) • k3v + k4v)) / (6 : ℚ))

namespace Simulator

/-- `Simulator::step`: one RK4 step using the latched `forces`, advancing
time by `dt` and appending a `(x,v,t)` record for every trajectory-enabled
agent.  Early return when there are no agents. -/
def step (s : Simulator) : Simulator :=
  if s.x.length = 0 then s else
  let n := s.x.length
  let res := fun i =>
    rk4Step s.dt (s.forces.getD i Vec3.zero) (s.mass.getD i 0) (s.drag.getD i 0)
      (s.x.getD i Vec3.zero) (s.v.getD i Vec3.zero)
  let newx := (List.range n).map fun i => (res i).1
  let newv := (List.range n).map fun i => (res i).2
  let newtime := s.time + s.dt
  let newtraj := (List.range n).map fun i =>
    match s.traj.getD i none with
    | none => none
    | some tr =>
        let p := newx.getD i Vec3.zero
        let w := newv.getD i Vec3.zero
        some (tr ++ [⟨p.x, p.y, p.z, w.x, w.y, w.z, newtime⟩])
  { s with x := newx, v := newv, time := newtime, traj := newtraj }

end Simulator

/-- `Engine::tick` (`src/engine.rs` lines 194-246) for a given controller
`applyF`: optional pre-flatten, controller, RK4 step, optional
post-flatten.  Every match arm of the source has exactly this shape. -/
def tickWith (applyF : Simulator → Simulator) (plane2d : Bool) (s : Simulator) : Simulator :=
  let s1 := if plane2d then s.flattenToPlane else s
  let s2 := applyF s1
  let s3 := s2.step
  if plane2d then s3.flattenToPlane else s3

/-- `Engine::tick` with the `none` algorithm: no controller runs between
the flattens and the step. -/
def tickNone (plane2d : Bool) (s : Simulator) : Simulator :=
  tickWith id plane2d s

/-- Iterated engine ticks with the `none` algorithm. -/
def tickNoneIter (plane2d : Bool) : ℕ → Simulator → Simulator
  | 0, s => s
  | k + 1, s => tickNoneIter plane2d k (tickNone plane2d s)

/-- Initial state of scenario S1: one agent at the origin with velocity
`(1,0,0)`, mass 1, drag 0, latched force `(−10,0,0)`, `dt = 0.01`. -/
def c1State : Simulator :=
  { x := [⟨0, 0, 0⟩]
    v := [⟨1, 0, 0⟩]
    mass := [1]
    drag := [0]
    groups := [0]
    forces := [⟨-10, 0, 0⟩]
    traj := [none]
    time := 0
    dt := 1 / 100 }

set_option maxRecDepth 100000

/-- C1: with the `none` algorithm, one agent starting at `(0,0,0)` with
velocity `(1,0,0)`, mass 1, drag 0, latched force `(−10,0,0)` and
`dt = 0.01`, after 30 ticks the position is exactly `(−0.15, 0, 0)` and
the velocity exactly `(−2, 0, 0)` (the rational model computes the RK4
update exactly; for constant acceleration it coincides with the ideal
kinematics, as the claim states). -/
theorem c1_s1_constant_force :
    (tickNoneIter false 30 c1State).x = [⟨-(3 / 20), 0, 0⟩] ∧
    (tickNoneIter false 30 c1State).v = [⟨-2, 0, 0⟩] := by
  constructor <;> decide

/-! Generic facts about `Simulator.step`, `flattenToPlane` and list access,
used by several claims below. -/

/-- `getD` through the z-zeroing map of `flattenToPlane` always yields a
zero z component (the out-of-range default `Vec3.zero` included). -/
theorem mapZeroZ_getD (l : List Vec3) (i : ℕ) :
    (((l.map fun p => { p with z := 0 }).getD i Vec3.zero)).z = 0 := by
  induction l generalizing i with
  | nil => cases i <;> rfl
  | cons a t ih =>
    cases i with
    | zero => rfl
    | succ j => exact ih j

theorem getD_set_self {α : Type} (l : List α) (i : ℕ) (a d : α) (h : i < l.length) :
    (l.set i a).getD i d = a := by
  induction l generalizing i with
  | nil => simp at h
  | cons b t ih =>
    cases i with
    | zero => rfl
    | succ j => exact ih j (by simpa using h)

theorem rangeMap_getD {α : Type} (n i : ℕ) (f : ℕ → α) (d : α) (h : i < n) :
    (((List.range n).map f).getD i d) = f i := by
  simp [List.getD, List.getElem?_map, List.getElem?_range, h]

theorem Simulator.step_forces (s : Simulator) : s.step.forces = s.forces := by
  unfold Simulator.step; split <;> rfl

theorem Simulator.step_mass (s : Simulator) : s.step.mass = s.mass := by
  unfold Simulator.step; split <;> rfl

theorem Simulator.step_drag (s : Simulator) : s.step.drag = s.drag := by
  unfold Simulator.step; split <;> rfl

theorem Simulator.step_groups (s : Simulator) : s.step.groups = s.groups := by
  unfold Simulator.step; split <;> rfl

theorem Simulator.step_time (s : Simulator) (h : s.x.length ≠ 0) :
    s.step.time = s.time + s.dt := by
  unfold Simulator.step
  rw [if_neg h]

/-- Access to agent `i` of the post-step positions: the per-agent RK4
update applied to agent `i`'s own data. -/
theorem Simulator.step_x_getD (s : Simulator) (i : ℕ) (h : i < s.x.length) :
    s.step.x.getD i Vec3.zero =
      (rk4Step s.dt (s.forces.getD i Vec3.zero) (s.mass.getD i 0) (s.drag.getD i 0)
        (s.x.getD i Vec3.zero) (s.v.getD i Vec3.zero)).1 := by
  unfold Simulator.step
  rw [if_neg (Nat.pos_iff_ne_zero.mp (lt_of_le_of_lt (Nat.zero_le i) h))]
  exact rangeMap_getD _ i _ _ h

/-- Access to agent `i` of the post-step velocities. -/
theorem Simulator.step_v_getD (s : Simulator) (i : ℕ) (h : i < s.x.length) :
    s.step.v.getD i Vec3.zero =
      (rk4Step s.dt (s.forces.getD i Vec3.zero) (s.mass.getD i 0) (s.drag.getD i 0)
        (s.x.getD i Vec3.zero) (s.v.getD i Vec3.zero)).2 := by
  unfold Simulator.step
  rw [if_neg (Nat.pos_iff_ne_zero.mp (lt_of_le_of_lt (Nat.zero_le i) h))]
  exact rangeMap_getD _ i _ _ h

theorem Simulator.flatten_time (s : Simulator) : s.flattenToPlane.time = s.time := rfl

theorem Simulator.flatten_dt (s : Simulator) : s.flattenToPlane.dt = s.dt := rfl

theorem Simulator.flatten_forces (s : Simulator) : s.flattenToPlane.forces = s.forces := rfl

theorem Simulator.flatten_len (s : Simulator) :
    s.flattenToPlane.x.length = s.x.length := by
  simp [Simulator.flattenToPlane]

theorem Simulator.setForce_x (s : Simulator) (i : ℕ) (F : Vec3) :
    (s.setForce i F).x = s.x := rfl

theorem Simulator.setForce_v (s : Simulator) (i : ℕ) (F : Vec3) :
    (s.setForce i F).v = s.v := rfl

theorem Simulator.setForce_mass (s : Simulator) (i : ℕ) (F : Vec3) :
    (s.setForce i F).mass = s.mass := rfl

theorem Simulator.setForce_drag (s : Simulator) (i : ℕ) (F : Vec3) :
    (s.setForce i F).drag = s.drag := rfl

theorem Simulator.setForce_groups (s : Simulator) (i : ℕ) (F : Vec3) :
    (s.setForce i F).groups = s.groups := rfl

theorem Simulator.setForce_dt (s : Simulator) (i : ℕ) (F : Vec3) :
    (s.setForce i F).dt = s.dt := rfl

theorem Simulator.setForce_forces (s : Simulator) (i : ℕ) (F : Vec3) :
    (s.setForce i F).forces = s.forces.set i F := rfl

/-! ### Claim C2 — tick validation of `dt` and masses -/

/-- An engine state with `dt = −1` (non-positive): the claim says `tick`
must be a silent no-op on it. -/
def c2State : Simulator :=
  { x := [⟨0, 0, 0⟩]
    v := [⟨1, 0, 0⟩]
    mass := [1]
    drag := [0]
    groups := [0]
    forces := [Vec3.zero]
    traj := [none]
    time := 0
    dt := -1 }

/-- C2 counterexample: with `dt = −1` (non-positive, hence in the class of
states the claim covers), `Engine::tick` with the `none` algorithm is not
a no-op — the integration step runs and changes position and time. -/
theorem c2_tick_not_noop : tickNone false c2State ≠ c2State := by
  decide

/-- C2 amended: `Engine::tick` performs no `dt`/mass validation at the
engine boundary.  With the `none` algorithm, for every state with at
least one agent — whatever `dt` or the masses are — the RK4 step runs
and time advances by `dt`.  (The early silent return on non-finite or
non-positive `dt` exists only inside the `formation-ecbf` and
`safe-flocking-alpha` controllers' `apply`, which guards the controller
alone, not the integration.) -/
theorem c2_amended_tick_unconditional (p : Bool) (s : Simulator)
    (h : 0 < s.x.length) :
    (tickNone p s).time = s.time + s.dt := by
  have hne : s.x.length ≠ 0 := Nat.pos_iff_ne_zero.mp h
  cases p with
  | false =>
      show s.step.time = s.time + s.dt
      exact Simulator.step_time s hne
  | true =>
      show s.flattenToPlane.step.flattenToPlane.time = s.time + s.dt
      rw [Simulator.flatten_time,
        Simulator.step_time _ (by rwa [Simulator.flatten_len]),
        Simulator.flatten_time, Simulator.flatten_dt]

theorem c2_amended_witness :
    0 < c2State.x.length ∧ (tickNone false c2State).time = c2State.time + c2State.dt :=
  ⟨by decide, c2_amended_tick_unconditional false c2State (by decide)⟩

/-! ### Claim C3 — plane-2D invariant after tick -/

/-- A plane-2D engine state with a caller-set force whose z component is
non-zero; the `none` algorithm never rewrites forces. -/
def c3State : Simulator :=
  { x := [⟨0, 0, 3⟩]
    v := [⟨0, 0, 2⟩]
    mass := [1]
    drag := [0]
    groups := [0]
    forces := [⟨0, 0, 5⟩]
    traj := [none]
    time := 0
    dt := 1 / 100 }

/-- C3 counterexample: with `plane_2d` enabled and the `none` algorithm,
a caller-set `force_z = 5` survives the tick unchanged —
`flatten_to_plane` zeroes only positions and velocities, never forces. -/
theorem c3_force_z_counterexample :
    ((tickNone true c3State).forces.getD 0 Vec3.zero).z ≠ 0 := by
  decide

/-- C3 amended: when `plane_2d` is enabled, after every `Engine::tick`
every agent has `position_z = 0` and `velocity_z = 0` — for every
controller, since each tick arm ends with `flatten_to_plane` — but the
stored `force_z` is not constrained by the tick itself: with the `none`
algorithm the per-agent forces pass through the tick unchanged, so a
caller-set non-zero `force_z` persists. -/
theorem c3_amended_plane2d :
    (∀ (applyF : Simulator → Simulator) (s : Simulator) (i : ℕ),
        ((tickWith applyF true s).x.getD i Vec3.zero).z = 0 ∧
        ((tickWith applyF true s).v.getD i Vec3.zero).z = 0) ∧
    ∀ (p : Bool) (s : Simulator), (tickNone p s).forces = s.forces := by
  constructor
  · intro applyF s i
    exact ⟨mapZeroZ_getD _ i, mapZeroZ_getD _ i⟩
  · intro p s
    cases p with
    | false => exact Simulator.step_forces s
    | true =>
        show s.flattenToPlane.step.flattenToPlane.forces = s.forces
        rw [Simulator.flatten_forces, Simulator.step_forces, Simulator.flatten_forces]

/-! ### Claim C5 — force latching and the step's frame -/

/-- C5: after `set_force(i, F)`, one integration step computes agent `i`'s
update by the four-stage RK4 formula with `F` as the external force of
every stage (`rk4Step` spells the stages out; the force argument is the
same in `k1v`, `k2v`, `k3v`, `k4v`), and the step leaves the stored
forces, masses, drags and groups exactly unchanged — in particular the
forces are still `s.forces.set i F` afterwards, reset only by explicit
caller writes. -/
theorem c5_force_latching (s : Simulator) (i : ℕ) (F : Vec3)
    (hi : i < s.x.length) (hf : s.x.length = s.forces.length) :
    ((s.setForce i F).step).forces = s.forces.set i F ∧
    ((s.setForce i F).step).mass = s.mass ∧
    ((s.setForce i F).step).drag = s.drag ∧
    ((s.setForce i F).step).groups = s.groups ∧
    ((s.setForce i F).step).x.getD i Vec3.zero =
      (rk4Step s.dt F (s.mass.getD i 0) (s.drag.getD i 0)
        (s.x.getD i Vec3.zero) (s.v.getD i Vec3.zero)).1 ∧
    ((s.setForce i F).step).v.getD i Vec3.zero =
      (rk4Step s.dt F (s.mass.getD i 0) (s.drag.getD i 0)
        (s.x.getD i Vec3.zero) (s.v.getD i Vec3.zero)).2 := by
  have hi' : i < (s.setForce i F).x.length := by rw [Simulator.setForce_x]; exact hi
  have hFread : (s.setForce i F).forces.getD i Vec3.zero = F := by
    rw [Simulator.setForce_forces]
    exact getD_set_self s.forces i F Vec3.zero (hf ▸ hi)
  refine ⟨?_, ?_, ?_, ?_, ?_, ?_⟩
  · rw [Simulator.step_forces, Simulator.setForce_forces]
  · rw [Simulator.step_mass, Simulator.setForce_mass]
  · rw [Simulator.step_drag, Simulator.setForce_drag]
  · rw [Simulator.step_groups, Simulator.setForce_groups]
  · rw [Simulator.step_x_getD _ i hi', hFread, Simulator.setForce_dt,
      Simulator.setForce_mass, Simulator.setForce_drag, Simulator.setForce_x,
      Simulator.setForce_v]
  · rw [Simulator.step_v_getD _ i hi', hFread, Simulator.setForce_dt,
      Simulator.setForce_mass, Simulator.setForce_drag, Simulator.setForce_x,
      Simulator.setForce_v]

/-- Witness state for C5. -/
def c5State : Simulator :=
  { x := [⟨1, 2, 3⟩]
    v := [⟨4, 5, 6⟩]
    mass := [2]
    drag := [1 / 10]
    groups := [7]
    forces := [⟨9, 9, 9⟩]
    traj := [none]
    time := 0
    dt := 1 / 50 }

theorem c5_force_latching_witness :
    (0 < c5State.x.length ∧ c5State.x.length = c5State.forces.length) ∧
    (((c5State.setForce 0 ⟨-10, 0, 0⟩).step).forces = c5State.forces.set 0 ⟨-10, 0, 0⟩ ∧
      ((c5State.setForce 0 ⟨-10, 0, 0⟩).step).mass = c5State.mass ∧
      ((c5State.setForce 0 ⟨-10, 0, 0⟩).step).drag = c5State.drag ∧
      ((c5State.setForce 0 ⟨-10, 0, 0⟩).step).groups = c5State.groups ∧
      ((c5State.setForce 0 ⟨-10, 0, 0⟩).step).x.getD 0 Vec3.zero =
        (rk4Step c5State.dt ⟨-10, 0, 0⟩ (c5State.mass.getD 0 0) (c5State.drag.getD 0 0)
          (c5State.x.getD 0 Vec3.zero) (c5State.v.getD 0 Vec3.zero)).1 ∧
      ((c5State.setForce 0 ⟨-10, 0, 0⟩).step).v.getD 0 Vec3.zero =
        (rk4Step c5State.dt ⟨-10, 0, 0⟩ (c5State.mass.getD 0 0) (c5State.drag.getD 0 0)
          (c5State.x.getD 0 Vec3.zero) (c5State.v.getD 0 Vec3.zero)).2) :=
  ⟨⟨by decide, by decide⟩, c5_force_latching c5State 0 ⟨-10, 0, 0⟩ (by decide) (by decide)⟩

/-! ### Claim C6 — the 1e-6 mass clamp -/

/-- One agent of mass `m` at rest with unit external force. -/
def c6State (m : ℚ) : Simulator :=
  { x := [⟨0, 0, 0⟩]
    v := [⟨0, 0, 0⟩]
    mass := [m]
    drag := [0]
    groups := [0]
    forces := [⟨1, 0, 0⟩]
    traj := [none]
    time := 0
    dt := 1 / 100 }

/-- C6 counterexample: an agent of mass `1e-7 < 1e-6` does not tick like
the same agent with mass `1e-6` — `Simulator::step` divides by the raw
stored mass, with no clamp. -/
theorem c6_no_clamp_counterexample :
    (tickNone false (c6State (1 / 10000000))).v ≠
      (tickNone false (c6State (1 / 1000000))).v := by
  decide

/-- The post-tick velocity of the `c6State` family in closed form: the
integrator divides the latched force by the raw mass `m`. -/
theorem c6_eval (m : ℚ) (hm : m ≠ 0) :
    ((tickNone false (c6State m)).v.getD 0 Vec3.zero) = ⟨1 / (100 * m), 0, 0⟩ := by
  show ((c6State m).step.v.getD 0 Vec3.zero) = _
  rw [Simulator.step_v_getD _ 0 (by simp [c6State])]
  show (rk4Step (1 / 100) ⟨1, 0, 0⟩ m 0 ⟨0, 0, 0⟩ ⟨0, 0, 0⟩).2 = _
  unfold rk4Step
  simp only [Vec3.smul_def, Vec3.add_def, Vec3.sub_def, Vec3.div_def, Vec3.mk.injEq]
  refine ⟨?_, by norm_num, by norm_num⟩
  field_simp
  ring

/-- C6 amended: the `1e-6` clamp exists only where the controllers read
the mass array (`mass.max(1e-6)` in `formation_ecbf.rs` and
`safe_flocking_alpha.rs`); the integrator divides by the raw stored
mass.  Hence for every mass `m ∈ (0, 1e-6)` an agent with a unit force
yields a post-tick state different from the one with mass `1e-6`, and
the claimed tick-equivalence fails. -/
theorem c6_amended_raw_mass (m : ℚ) (h0 : 0 < m) (hlt : m < 1 / 1000000) :
    (tickNone false (c6State m)).v.getD 0 Vec3.zero ≠
      (tickNone false (c6State (1 / 1000000))).v.getD 0 Vec3.zero := by
  rw [c6_eval m h0.ne', c6_eval (1 / 1000000) (by norm_num)]
  intro h
  rw [Vec3.mk.injEq] at h
  have hm : m = 1 / 1000000 := by
    have hne : (100 : ℚ) * m ≠ 0 := by positivity
    have h1 : (1 : ℚ) / (100 * m) = 10000 := by rw [h.1]; norm_num
    field_simp at h1
    linarith
  rw [hm] at hlt
  exact absurd hlt (lt_irrefl _)

theorem c6_amended_witness :
    (0 < (1 : ℚ) / 10000000 ∧ (1 : ℚ) / 10000000 < 1 / 1000000) ∧
      (tickNone false (c6State (1 / 10000000))).v.getD 0 Vec3.zero ≠
        (tickNone false (c6State (1 / 1000000))).v.getD 0 Vec3.zero :=
  ⟨⟨by norm_num, by norm_num⟩,
    c6_amended_raw_mass (1 / 10000000) (by norm_num) (by norm_num)⟩

/-! ### Claim C7 — plane-2D and recorded trajectories -/

/-- A plane-2D engine state with one trajectory-recording agent and a
caller-set force pointing out of the plane. -/
def c7State : Simulator :=
  { x := [⟨0, 0, 0⟩]
    v := [⟨0, 0, 0⟩]
    mass := [1]
    drag := [0]
    groups := [0]
    forces := [⟨0, 0, 1⟩]
    traj := [some []]
    time := 0
    dt := 1 / 100 }

/-- C7 failing-input evaluation: with `plane_2d` on, the trajectory
record appended during the tick is the post-step, pre-flatten state —
its z position (`1/20000`) and z velocity (`1/100`) are non-zero, even
though the simulator state itself is flattened right afterwards.  The
claim (mandated by the spec) says both recorded entries must be 0. -/
theorem c7_trajectory_z_eval :
    (tickNone true c7State).traj = [some [⟨0, 0, 1 / 20000, 0, 0, 1 / 100, 1 / 100⟩]] ∧
    ((1 : ℚ) / 20000 ≠ 0 ∧ (1 : ℚ) / 100 ≠ 0) ∧
    (tickNone true c7State).x = [⟨0, 0, 0⟩] ∧ (tickNone true c7State).v = [⟨0, 0, 0⟩] := by
  refine ⟨?_, ⟨by norm_num, by norm_num⟩, ?_, ?_⟩ <;> decide

/-! ### QP projector (`src/algorithms/qp_project.rs`) -/

/-- `Halfspace3`: the constraint `aᵀx ≥ b`. -/
structure Halfspace3 where
  a : Vec3
  b : ℚ
deriving DecidableEq, Repr

/-- 4-vector of rationals (`nalgebra::SVector<f64, 4>`), used by the
slack-augmented projector. -/
structure Vec4 where
  x : ℚ
  y : ℚ
  z : ℚ
  w : ℚ
deriving DecidableEq, Repr

namespace Vec4

def zero : Vec4 := ⟨0, 0, 0, 0⟩

instance : Add Vec4 := ⟨fun a b => ⟨a.x + b.x, a.y + b.y, a.z + b.z, a.w + b.w⟩⟩

instance : Sub Vec4 := ⟨fun a b => ⟨a.x - b.x, a.y - b.y, a.z - b.z, a.w - b.w⟩⟩

instance : SMul ℚ Vec4 := ⟨fun c v => ⟨c * v.x, c * v.y, c * v.z, c * v.w⟩⟩

def dot (a b : Vec4) : ℚ := a.x * b.x + a.y * b.y + a.z * b.z + a.w * b.w

theorem add_def4 (a b : Vec4) : a + b = ⟨a.x + b.x, a.y + b.y, a.z + b.z, a.w + b.w⟩ := rfl

theorem sub_def4 (a b : Vec4) : a - b = ⟨a.x - b.x, a.y - b.y, a.z - b.z, a.w - b.w⟩ := rfl

theorem smul_def4 (c : ℚ) (v : Vec4) : c • v = ⟨c * v.x, c * v.y, c * v.z, c * v.w⟩ := rfl

end Vec4

/-- `Halfspace4`. -/
structure Halfspace4 where
  a : Vec4
  b : ℚ
deriving DecidableEq, Repr

/-- `f64::max` then `f64::min`: `v.max(lo).min(hi)`. -/
def clampQ (v lo hi : ℚ) : ℚ := min (max v lo) hi

/-- `clamp_vec3`: componentwise clamp. -/
def clampVec3 (v mn mx : Vec3) : Vec3 :=
  ⟨clampQ v.x mn.x mx.x, clampQ v.y mn.y mx.y, clampQ v.z mn.z mx.z⟩

/-- `clamp_vec4`: componentwise clamp over the four components. -/
def clampVec4 (v mn mx : Vec4) : Vec4 :=
  ⟨clampQ v.x mn.x mx.x, clampQ v.y mn.y mx.y, clampQ v.z mn.z mx.z, clampQ v.w mn.w mx.w⟩

/-- `project_halfspace3`: pass through when `aᵀa ≤ 1e-12` (degenerate
normal) or when `aᵀy ≥ b` already holds; otherwise move to the boundary
along `a`. -/
def projectHalfspace3 (y a : Vec3) (b : ℚ) : Vec3 :=
  let aa := Vec3.dot a a
  if aa ≤ 1 / 1000000000000 then y
  else
    let ay := Vec3.dot a y
    if b ≤ ay then y
    else y + ((b - ay) / aa) • a

/-- `project_halfspace4`, identical in 4D. -/
def projectHalfspace4 (y a : Vec4) (b : ℚ) : Vec4 :=
  let aa := Vec4.dot a a
  if aa ≤ 1 / 1000000000000 then y
  else
    let ay := Vec4.dot a y
    if b ≤ ay then y
    else y + ((b - ay) / aa) • a

/-- One Dykstra sweep over the half-space list: for each projector in
order, `y = x + corr`, `x ← P(y)`, `corr ← y − x`.  The correction
vectors travel with the constraints as pairs.  `project_qp3` and
`project_qp4` run the same loop body at different dimensions, so the
sweep is stated once over an arbitrary vector type. -/
def dykstraPass {V C : Type} [Add V] [Sub V] (proj : V → C → V) :
    V → List (C × V) → V × List V
  | x, [] => (x, [])
  | x, (c, corr) :: rest =>
      let y := x + corr
      let xNew := proj y c
      let corrNew := y - xNew
      let r := dykstraPass proj xNew rest
      (r.1, corrNew :: r.2)

/-- One iteration of the `for _ in 0..iters.max(1)` loop: box projection
(with its own correction slot 0), then the half-space sweep. -/
def dykstraCycle {V C : Type} [Add V] [Sub V] (clampB : V → V) (proj : V → C → V)
    (cs : List C) (st : V × V × List V) : V × V × List V :=
  let y := st.1 + st.2.1
  let xNew := clampB y
  let corr0 := y - xNew
  let r := dykstraPass proj xNew (cs.zip st.2.2)
  (r.1, corr0, r.2)

/-- The bounded iteration of cycles. -/
def dykstraLoop {V C : Type} [Add V] [Sub V] (clampB : V → V) (proj : V → C → V)
    (cs : List C) : ℕ → V × V × List V → V × V × List V
  | 0, st => st
  | k + 1, st => dykstraCycle clampB proj cs (dykstraLoop clampB proj cs k st)

/-- `project_qp3` (`src/algorithms/qp_project.rs` lines 15-41). -/
def project_qp3 (x_nom box_min box_max : Vec3) (constraints : List Halfspace3)
    (iters : ℕ) : Vec3 :=
  (dykstraLoop (fun y => clampVec3 y box_min box_max)
      (fun y c => projectHalfspace3 y c.a c.b) constraints (max iters 1)
      (x_nom, Vec3.zero, List.replicate constraints.length Vec3.zero)).1

/-- `project_qp4` (`src/algorithms/qp_project.rs` lines 43-67). -/
def project_qp4 (x_nom box_min box_max : Vec4) (constraints : List Halfspace4)
    (iters : ℕ) : Vec4 :=
  (dykstraLoop (fun y => clampVec4 y box_min box_max)
      (fun y c => projectHalfspace4 y c.a c.b) constraints (max iters 1)
      (x_nom, Vec4.zero, List.replicate constraints.length Vec4.zero)).1

/-- C4 / scenario S4: projecting `x̄ = (0,0,0)` onto the box `[−1,1]³`
with the single half-space `a = (1,0,0)`, `b = 0.5` for 8 iterations
yields a point within `1e-10` of `(0.5, 0, 0)` in every component (the
rational model lands on it exactly). -/
theorem c4_s4_qp_projection :
    |(project_qp3 Vec3.zero ⟨-1, -1, -1⟩ ⟨1, 1, 1⟩ [⟨⟨1, 0, 0⟩, 1 / 2⟩] 8).x - 1 / 2| ≤
        1 / 10000000000 ∧
    |(project_qp3 Vec3.zero ⟨-1, -1, -1⟩ ⟨1, 1, 1⟩ [⟨⟨1, 0, 0⟩, 1 / 2⟩] 8).y| ≤
        1 / 10000000000 ∧
    |(project_qp3 Vec3.zero ⟨-1, -1, -1⟩ ⟨1, 1, 1⟩ [⟨⟨1, 0, 0⟩, 1 / 2⟩] 8).z| ≤
        1 / 10000000000 := by
  refine ⟨?_, ?_, ?_⟩ <;> decide

/-- Concrete evaluation used by C10 (iii): one iteration on the box
`[−1,1]³` with the single half-space `x ≥ 2` leaves the box. -/
theorem qp3_box_violation_eval :
    (project_qp3 Vec3.zero ⟨-1, -1, -1⟩ ⟨1, 1, 1⟩ [⟨⟨1, 0, 0⟩, 2⟩] 1).x = 2 := by
  decide

/-- The half-space projection satisfies its own constraint whenever the
normal passes the `aᵀa > 1e-12` guard: the pass-through branch already
satisfies it and the projection branch lands exactly on the boundary. -/
theorem projectHalfspace3_sat (y a : Vec3) (b : ℚ)
    (hg : 1 / 1000000000000 < Vec3.dot a a) :
    b ≤ Vec3.dot a (projectHalfspace3 y a b) := by
  simp only [projectHalfspace3]
  split_ifs with h1 h2
  · exact absurd hg (not_lt.mpr h1)
  · exact h2
  · have haa : Vec3.dot a a ≠ 0 := by
      have : (0 : ℚ) < Vec3.dot a a := lt_trans (by norm_num) hg
      exact this.ne'
    have hexp : Vec3.dot a (y + ((b - Vec3.dot a y) / Vec3.dot a a) • a) =
        Vec3.dot a y + (b - Vec3.dot a y) / Vec3.dot a a * Vec3.dot a a := by
      simp only [Vec3.dot, Vec3.add_def, Vec3.smul_def]
      ring
    rw [hexp, div_mul_cancel₀ _ haa]
    linarith

theorem projectHalfspace4_sat (y a : Vec4) (b : ℚ)
    (hg : 1 / 1000000000000 < Vec4.dot a a) :
    b ≤ Vec4.dot a (projectHalfspace4 y a b) := by
  simp only [projectHalfspace4]
  split_ifs with h1 h2
  · exact absurd hg (not_lt.mpr h1)
  · exact h2
  · have haa : Vec4.dot a a ≠ 0 := by
      have : (0 : ℚ) < Vec4.dot a a := lt_trans (by norm_num) hg
      exact this.ne'
    have hexp : Vec4.dot a (y + ((b - Vec4.dot a y) / Vec4.dot a a) • a) =
        Vec4.dot a y + (b - Vec4.dot a y) / Vec4.dot a a * Vec4.dot a a := by
      simp only [Vec4.dot, Vec4.add_def4, Vec4.smul_def4]
      ring
    rw [hexp, div_mul_cancel₀ _ haa]
    linarith

/- The remaining C10 reasoning is symbolic; keeping the leaf projection
and clamp bodies opaque stops definitional unfolding of their numeric
guards during unification.  (The kernel ignores reducibility, so nothing
proved above changes.) -/
attribute [irreducible] projectHalfspace3 projectHalfspace4 clampVec3 clampVec4

/-! Structural lemmas about the Dykstra loop, shared by the 3D and 4D
instantiations. -/

theorem dykstraPass_len {V C : Type} [Add V] [Sub V] (proj : V → C → V) :
    ∀ (pairs : List (C × V)) (x : V), (dykstraPass proj x pairs).2.length = pairs.length := by
  intro pairs
  induction pairs with
  | nil => intro x; rfl
  | cons p rest ih =>
      intro x
      cases p with
      | mk c corr => simp [dykstraPass, ih]

/-- If every projection onto the constraint `c` lands in `P`, and `c` is
the last constraint of the sweep, then the sweep's result is in `P`:
the final operation of the sweep is exactly the projection onto `c`. -/
theorem dykstraPass_last_sat {V C : Type} [Add V] [Sub V] (proj : V → C → V)
    (P : V → Prop) (c : C) (hproj : ∀ y, P (proj y c)) :
    ∀ (cs : List C) (corrs : List V) (x : V), cs.getLast? = some c →
      corrs.length = cs.length → P (dykstraPass proj x (cs.zip corrs)).1 := by
  intro cs
  induction cs with
  | nil => intro corrs x h _; simp at h
  | cons c0 rest ih =>
      intro corrs x hlast hlen
      cases corrs with
      | nil => simp at hlen
      | cons r0 rs =>
          cases rest with
          | nil =>
              have hc : c0 = c := by simpa using hlast
              subst hc
              exact hproj _
          | cons c1 rest2 =>
              have hlast2 : (c1 :: rest2).getLast? = some c := by
                rwa [List.getLast?_cons_cons] at hlast
              have hlen2 : rs.length = (c1 :: rest2).length := by simpa using hlen
              exact ih rs _ hlast2 hlen2

theorem dykstraLoop_corr_len {V C : Type} [Add V] [Sub V] (clampB : V → V)
    (proj : V → C → V) (cs : List C) :
    ∀ (k : ℕ) (st : V × V × List V), st.2.2.length = cs.length →
      (dykstraLoop clampB proj cs k st).2.2.length = cs.length := by
  intro k
  induction k with
  | zero => intro st h; exact h
  | succ n ih =>
      intro st h
      show (dykstraCycle clampB proj cs (dykstraLoop clampB proj cs n st)).2.2.length = cs.length
      have h2 := ih st h
      simp [dykstraCycle, dykstraPass_len, List.length_zip, h2]

theorem dykstraLoop_last_sat {V C : Type} [Add V] [Sub V] (clampB : V → V)
    (proj : V → C → V) (P : V → Prop) (cs : List C) (c : C)
    (hlast : cs.getLast? = some c) (hproj : ∀ y, P (proj y c))
    (k : ℕ) (st : V × V × List V) (hlen : st.2.2.length = cs.length) :
    P (dykstraLoop clampB proj cs (k + 1) st).1 := by
  show P (dykstraCycle clampB proj cs (dykstraLoop clampB proj cs k st)).1
  exact dykstraPass_last_sat proj P c hproj cs _ _ hlast
    (dykstraLoop_corr_len clampB proj cs k st hlen)

/-- With no constraints the loop stabilizes at the componentwise clamp
after the first cycle. -/
theorem dykstraLoop_empty {V C : Type} [Add V] [Sub V] (clampB : V → V)
    (proj : V → C → V) (z xnom : V) (hz : xnom + z = xnom)
    (hsub : ∀ a b : V, a + (b - a) = b) :
    ∀ k : ℕ, dykstraLoop clampB proj [] (k + 1) (xnom, z, []) =
      (clampB xnom, xnom - clampB xnom, []) := by
  intro k
  induction k with
  | zero =>
      show dykstraCycle clampB proj [] (xnom, z, []) = _
      simp [dykstraCycle, dykstraPass, hz]
  | succ n ih =>
      show dykstraCycle clampB proj [] (dykstraLoop clampB proj [] (n + 1) (xnom, z, [])) = _
      rw [ih]
      simp [dykstraCycle, dykstraPass, hsub]

theorem vec3_add_zero (v : Vec3) : v + Vec3.zero = v := by
  cases v with
  | mk a b c => simp [Vec3.add_def, Vec3.zero]

theorem vec3_add_sub (a b : Vec3) : a + (b - a) = b := by
  cases a with
  | mk ax ay az =>
      cases b with
      | mk bx bY bz =>
          simp only [Vec3.add_def, Vec3.sub_def, Vec3.mk.injEq]
          refine ⟨by ring, by ring, by ring⟩

theorem vec4_add_zero (v : Vec4) : v + Vec4.zero = v := by
  cases v with
  | mk a b c d => simp [Vec4.add_def4, Vec4.zero]

theorem vec4_add_sub (a b : Vec4) : a + (b - a) = b := by
  cases a with
  | mk ax ay az aw =>
      cases b with
      | mk bx bY bz bw =>
          simp only [Vec4.add_def4, Vec4.sub_def4, Vec4.mk.injEq]
          refine ⟨by ring, by ring, by ring, by ring⟩

theorem max_iters_succ (iters : ℕ) : max iters 1 = (max iters 1 - 1) + 1 :=
  (Nat.succ_pred_eq_of_pos (le_max_right iters 1)).symm

/-- C10: (i) the output of `project_qp3`/`project_qp4` satisfies the last
half-space of the constraint list whenever its normal passes the
`aᵀa > 1e-12` guard, because every cycle ends with the projection onto
it; (ii) with an empty constraint list the output is exactly the
componentwise clamp of the nominal point to the box; (iii) with a
non-empty constraint list nothing re-imposes the box after the last
half-space projection: on the box `[−1,1]³` with the single half-space
`x ≥ 2`, one iteration returns `(2,0,0)`, outside the box. -/
theorem c10_qp_structure :
    (∀ (x_nom mn mx : Vec3) (cs : List Halfspace3) (c : Halfspace3) (iters : ℕ),
        cs.getLast? = some c → 1 / 1000000000000 < Vec3.dot c.a c.a →
        c.b ≤ Vec3.dot c.a (project_qp3 x_nom mn mx cs iters)) ∧
    (∀ (x_nom mn mx : Vec4) (cs : List Halfspace4) (c : Halfspace4) (iters : ℕ),
        cs.getLast? = some c → 1 / 1000000000000 < Vec4.dot c.a c.a →
        c.b ≤ Vec4.dot c.a (project_qp4 x_nom mn mx cs iters)) ∧
    (∀ (x_nom mn mx : Vec3) (iters : ℕ),
        project_qp3 x_nom mn mx [] iters = clampVec3 x_nom mn mx) ∧
    (∀ (x_nom mn mx : Vec4) (iters : ℕ),
        project_qp4 x_nom mn mx [] iters = clampVec4 x_nom mn mx) ∧
    ((project_qp3 Vec3.zero ⟨-1, -1, -1⟩ ⟨1, 1, 1⟩ [⟨⟨1, 0, 0⟩, 2⟩] 1).x = 2 ∧
      ¬ (project_qp3 Vec3.zero ⟨-1, -1, -1⟩ ⟨1, 1, 1⟩ [⟨⟨1, 0, 0⟩, 2⟩] 1).x ≤ 1) := by
  refine ⟨?_, ?_, ?_, ?_, qp3_box_violation_eval,
    by rw [qp3_box_violation_eval]; norm_num⟩
  · intro x_nom mn mx cs c iters hlast hg
    unfold project_qp3
    rw [max_iters_succ iters]
    exact @dykstraLoop_last_sat Vec3 Halfspace3 _ _ (fun y => clampVec3 y mn mx)
      (fun y cc => projectHalfspace3 y cc.a cc.b) (fun v => c.b ≤ Vec3.dot c.a v) cs c hlast
      (fun y => projectHalfspace3_sat y c.a c.b hg) _ _ (by simp)
  · intro x_nom mn mx cs c iters hlast hg
    unfold project_qp4
    rw [max_iters_succ iters]
    exact @dykstraLoop_last_sat Vec4 Halfspace4 _ _ (fun y => clampVec4 y mn mx)
      (fun y cc => projectHalfspace4 y cc.a cc.b) (fun v => c.b ≤ Vec4.dot c.a v) cs c hlast
      (fun y => projectHalfspace4_sat y c.a c.b hg) _ _ (by simp)
  · intro x_nom mn mx iters
    unfold project_qp3
    simp only [List.length_nil, List.replicate_zero]
    rw [max_iters_succ iters,
      @dykstraLoop_empty Vec3 Halfspace3 _ _ (fun y => clampVec3 y mn mx)
        (fun y cc => projectHalfspace3 y cc.a cc.b) Vec3.zero x_nom
        (vec3_add_zero x_nom) vec3_add_sub]
  · intro x_nom mn mx iters
    unfold project_qp4
    simp only [List.length_nil, List.replicate_zero]
    rw [max_iters_succ iters,
      @dykstraLoop_empty Vec4 Halfspace4 _ _ (fun y => clampVec4 y mn mx)
        (fun y cc => projectHalfspace4 y cc.a cc.b) Vec4.zero x_nom
        (vec4_add_zero x_nom) vec4_add_sub]

theorem c10_qp_structure_witness :
    (([⟨⟨1, 0, 0⟩, 1 / 2⟩] : List Halfspace3).getLast? = some ⟨⟨1, 0, 0⟩, 1 / 2⟩ ∧
      (1 : ℚ) / 1000000000000 < Vec3.dot ⟨1, 0, 0⟩ ⟨1, 0, 0⟩) ∧
    (1 : ℚ) / 2 ≤ Vec3.dot ⟨1, 0, 0⟩
      (project_qp3 Vec3.zero ⟨-1, -1, -1⟩ ⟨1, 1, 1⟩ [⟨⟨1, 0, 0⟩, 1 / 2⟩] 8) :=
  ⟨⟨rfl, by norm_num [Vec3.dot]⟩,
    c10_qp_structure.1 Vec3.zero ⟨-1, -1, -1⟩ ⟨1, 1, 1⟩ [⟨⟨1, 0, 0⟩, 1 / 2⟩]
      ⟨⟨1, 0, 0⟩, 1 / 2⟩ 8 rfl (by norm_num [Vec3.dot])⟩

/-! ### Obstacle model (`src/algorithms/obstacles.rs`) -/

/-- `ObstaclePoly`: quadratic trajectory `p(t) = a2 t² + a1 t + a0` with
safety radius `d`.  The source stores `a2`,`a1`,`a0` as `[f64; 3]`. -/
structure ObstaclePoly where
  a2 : Vec3
  a1 : Vec3
  a0 : Vec3
  d : ℚ

namespace ObstaclePoly

def pos (ob : ObstaclePoly) (t : ℚ) : Vec3 :=
  ⟨ob.a2.x * t * t + ob.a1.x * t + ob.a0.x,
   ob.a2.y * t * t + ob.a1.y * t + ob.a0.y,
   ob.a2.z * t * t + ob.a1.z * t + ob.a0.z⟩

def vel (ob : ObstaclePoly) (t : ℚ) : Vec3 :=
  ⟨2 * ob.a2.x * t + ob.a1.x, 2 * ob.a2.y * t + ob.a1.y, 2 * ob.a2.z * t + ob.a1.z⟩

def acc (ob : ObstaclePoly) : Vec3 :=
  ⟨2 * ob.a2.x, 2 * ob.a2.y, 2 * ob.a2.z⟩

end ObstaclePoly

/-- `paper_obstacles()`: the six built-in obstacles. -/
def paper_obstacles : List ObstaclePoly :=
  [⟨⟨0, 0, 0⟩, ⟨0, 0, 0⟩, ⟨47, 86, 10⟩, 5⟩,
   ⟨⟨0, 0, 0⟩, ⟨0, 0, 0⟩, ⟨52, 78, 9⟩, 4⟩,
   ⟨⟨0, 0, 0⟩, ⟨0, 0, 0⟩, ⟨43, 82, 123 / 2⟩, 5⟩,
   ⟨⟨0, 0, 0⟩, ⟨0, 0, 0⟩, ⟨49, 75, 121 / 2⟩, 11 / 2⟩,
   ⟨⟨0, 1 / 1000, 0⟩, ⟨-(6 / 100), 0, -(89 / 1000)⟩, ⟨95, 15, 100⟩, 3⟩,
   ⟨⟨0, 0, 0⟩, ⟨0, 0, 0⟩, ⟨69, 83, 249 / 2⟩, 6⟩]

/-! ### Controller parameter blocks (`src/algorithms/...`) -/

/-- `FlockParams` (`src/algorithms/flocking.rs`). -/
structure FlockParams where
  neighbor_radius : ℚ
  separation_radius : ℚ
  cohesion_weight : ℚ
  alignment_weight : ℚ
  separation_weight : ℚ
  boundary_radius : ℚ
  boundary_weight : ℚ
  max_speed : ℚ
  max_force : ℚ
  speed_limit : ℚ

/-- `FlockParams::default()` with the `DEFAULT_*` constants. -/
def FlockParams.default : FlockParams :=
  { neighbor_radius := 13 / 5
    separation_radius := 9 / 10
    cohesion_weight := 9 / 20
    alignment_weight := 13 / 20
    separation_weight := 207 / 20
    boundary_radius := 6
    boundary_weight := 4 / 5
    max_speed := 12 / 5
    max_force := 8 / 5
    speed_limit := 2 }

/-- `FlockAlphaParams` (`src/algorithms/flocking_alpha.rs`). -/
structure FlockAlphaParams where
  neighbor_radius : ℚ
  desired_distance : ℚ
  sigma_eps : ℚ
  bump_h : ℚ
  phi_a : ℚ
  phi_b : ℚ
  alpha_weight : ℚ
  alignment_weight : ℚ
  boundary_radius : ℚ
  boundary_weight : ℚ
  max_speed : ℚ
  max_force : ℚ
  speed_limit : ℚ

def FlockAlphaParams.default : FlockAlphaParams :=
  { neighbor_radius := 13 / 5
    desired_distance := 7 / 5
    sigma_eps := 1 / 10
    bump_h := 1 / 5
    phi_a := 5
    phi_b := 5
    alpha_weight := 1
    alignment_weight := 13 / 20
    boundary_radius := 6
    boundary_weight := 4 / 5
    max_speed := 12 / 5
    max_force := 8 / 5
    speed_limit := 2 }

/-- `LeaderTrajectory` (`src/algorithms/formation_ecbf.rs`). -/
inductive LeaderTrajectory where
  | paper
  | staticPos (position : Vec3)
  | poly (a2 a1 a0 : Vec3)
  | circle (center : Vec3) (radius omega : ℚ)
  | custom

/-- `custom_leader_trajectory(t)`: the fixed host-editable circle+climb.
`cosF`/`sinF` stand for `f64::cos`/`f64::sin`. -/
def custom_leader_trajectory (cosF sinF : ℚ → ℚ) (t : ℚ) : Vec3 × Vec3 × Vec3 :=
  let radius : ℚ := 15
  let omega : ℚ := 4 / 100
  let angle := omega * t
  (⟨radius * cosF angle, radius * sinF angle, 1 / 5 * t⟩,
   ⟨-radius * omega * sinF angle, radius * omega * cosF angle, 1 / 5⟩,
   ⟨-radius * omega * omega * cosF angle, -radius * omega * omega * sinF angle, 0⟩)

/-- `LeaderTrajectory::state(t)`: the leader pose `(p, v, a)`.  `piQ`
stands for `std::f64::consts::PI`. -/
def LeaderTrajectory.state (cosF sinF : ℚ → ℚ) (piQ : ℚ) :
    LeaderTrajectory → ℚ → Vec3 × Vec3 × Vec3
  | .paper, t =>
      let omega : ℚ := -(6 / 100)
      let phase := piQ
      let angle := omega * t + phase
      let c := cosF angle
      let s := sinF angle
      (⟨60 + 25 * c, 60 + 25 * s, 1 / 2 * t⟩,
       ⟨3 / 2 * s, -(3 / 2) * c, 1 / 2⟩,
       ⟨-(9 / 100) * c, -(9 / 100) * s, 0⟩)
  | .staticPos position, _ => (position, ⟨0, 0, 0⟩, ⟨0, 0, 0⟩)
  | .poly a2 a1 a0, t =>
      (⟨a2.x * t * t + a1.x * t + a0.x,
        a2.y * t * t + a1.y * t + a0.y,
        a2.z * t * t + a1.z * t + a0.z⟩,
       ⟨2 * a2.x * t + a1.x, 2 * a2.y * t + a1.y, 2 * a2.z * t + a1.z⟩,
       ⟨2 * a2.x, 2 * a2.y, 2 * a2.z⟩)
  | .circle center radius omega, t =>
      let angle := omega * t
      let c := cosF angle
      let s := sinF angle
      (⟨center.x + radius * c, center.y + radius * s, center.z⟩,
       ⟨-radius * omega * s, radius * omega * c, 0⟩,
       ⟨-radius * omega * omega * c, -radius * omega * omega * s, 0⟩)
  | .custom, t => custom_leader_trajectory cosF sinF t

/-- `FormationEcbfParams` (`src/algorithms/formation_ecbf.rs`); `u_min`,
`u_max` are `[f64; 3]` in the source. -/
structure FormationEcbfParams where
  k1 : ℚ
  k2 : ℚ
  gamma1 : ℚ
  gamma2 : ℚ
  m1 : ℚ
  m2 : ℚ
  obs_k1 : ℚ
  obs_k2 : ℚ
  obs_k3 : ℚ
  obs_a1 : ℚ
  obs_a2 : ℚ
  obs_b1 : ℚ
  obs_b2 : ℚ
  do_kappa1 : ℚ
  do_kappa2 : ℚ
  do_kappa3 : ℚ
  do_eta1 : ℚ
  do_eta2 : ℚ
  do_eta3 : ℚ
  do_n1 : ℚ
  do_n2 : ℚ
  delta_theta : ℚ
  delta2_star : ℚ
  lambda1 : ℚ
  lambda2 : ℚ
  gravity : ℚ
  desired_yaw : ℚ
  leader_time_scale : ℚ
  leader_paused : Bool
  smooth_eps : ℚ
  mu_dot_filter : ℚ
  alpha_dot_filter : ℚ
  u_min : Vec3
  u_max : Vec3
  qp_iters : ℕ
  obstacles : List ObstaclePoly
  formation_offsets : List Vec3
  auto_offsets : Bool
  adjacency : List (List ℚ)
  leader_links : List ℚ
  leader : LeaderTrajectory
  use_moving_obstacle_terms : Bool

/-- `FormationEcbfParams::default()` (`DEFAULT_QP_ITERS = 12`,
`DEFAULT_EPS = 1e-2`). -/
def FormationEcbfParams.default : FormationEcbfParams :=
  { k1 := 2
    k2 := 3
    gamma1 := 1 / 2
    gamma2 := 1 / 2
    m1 := 1
    m2 := 2
    obs_k1 := 1
    obs_k2 := 1
    obs_k3 := 2
    obs_a1 := 2
    obs_a2 := 1
    obs_b1 := 1
    obs_b2 := 2
    do_kappa1 := 4
    do_kappa2 := 2
    do_kappa3 := 3
    do_eta1 := 3 / 2
    do_eta2 := 3 / 2
    do_eta3 := 1 / 2
    do_n1 := 1 / 2
    do_n2 := 3 / 2
    delta_theta := 1 / 5
    delta2_star := 0
    lambda1 := 2
    lambda2 := 2
    gravity := 981 / 100
    desired_yaw := 0
    leader_time_scale := 1
    leader_paused := false
    smooth_eps := 1 / 100
    mu_dot_filter := 4 / 5
    alpha_dot_filter := 4 / 5
    u_min := ⟨-6, -6, 0⟩
    u_max := ⟨6, 6, 20⟩
    qp_iters := 12
    obstacles := paper_obstacles
    formation_offsets := [⟨-3, 3, 0⟩, ⟨-3, -3, 0⟩, ⟨3, 3, 0⟩, ⟨3, -3, 0⟩]
    auto_offsets := true
    adjacency := [[0, 0, 1, 0], [0, 0, 1, 1], [1, 1, 0, 0], [0, 1, 0, 0]]
    leader_links := [1, 1, 0, 0]
    leader := .circle ⟨0, 0, 0⟩ 6 (1 / 5)
    use_moving_obstacle_terms := true }

/-- `FormationEcbfState` (`#[derive(Default)]` in the source). -/
structure FormationEcbfState where
  chi : List Vec3
  varsigma : List Vec3
  v_hat : List Vec3
  theta_hat : List Vec3
  p_state : List Vec3
  mu_prev : List Vec3
  mu_dot_prev : List Vec3
  alpha_prev : List Vec3
  alpha_dot_prev : List Vec3
  mu_ready : List Bool
  alpha_ready : List Bool
  formation_offsets : List Vec3
  offsets_ready : Bool
  attitudes : List Vec3
  thrusts : List ℚ
  leader_hold : Option (Vec3 × Vec3 × Vec3)

/-- `FormationEcbfState::default()`: empty buffers, nothing latched. -/
def FormationEcbfState.empty : FormationEcbfState :=
  { chi := []
    varsigma := []
    v_hat := []
    theta_hat := []
    p_state := []
    mu_prev := []
    mu_dot_prev := []
    alpha_prev := []
    alpha_dot_prev := []
    mu_ready := []
    alpha_ready := []
    formation_offsets := []
    offsets_ready := false
    attitudes := []
    thrusts := []
    leader_hold := none }

/-- `FormationEcbf`. -/
structure FormationEcbf where
  params : FormationEcbfParams
  state : FormationEcbfState

/-- `FormationEcbf::new(params)`. -/
def FormationEcbf.new (params : FormationEcbfParams) : FormationEcbf :=
  { params := params, state := FormationEcbfState.empty }

/-- `FormationEcbf::leader_state` (`src/algorithms/formation_ecbf.rs`
lines 495-508): while paused, return the held sample or latch the
current one; while unpaused, clear the hold and evaluate the leader at
the scaled time.  The mutation of `self` is modelled by returning the
updated controller. -/
def FormationEcbf.leaderState (cosF sinF : ℚ → ℚ) (piQ : ℚ)
    (self : FormationEcbf) (t : ℚ) : (Vec3 × Vec3 × Vec3) × FormationEcbf :=
  if self.params.leader_paused then
    match self.state.leader_hold with
    | some st => (st, self)
    | none =>
        let scaled := t * self.params.leader_time_scale
        let st := self.params.leader.state cosF sinF piQ scaled
        (st, { self with state := { self.state with leader_hold := some st } })
  else
    let scaled := t * self.params.leader_time_scale
    (self.params.leader.state cosF sinF piQ scaled,
     { self with state := { self.state with leader_hold := none } })

/-- `SafeFlockAlphaParams` (`src/algorithms/safe_flocking_alpha.rs`). -/
structure SafeFlockAlphaParams where
  neighbor_radius : ℚ
  desired_distance : ℚ
  sigma_eps : ℚ
  bump_h : ℚ
  phi_a : ℚ
  phi_b : ℚ
  alpha_weight : ℚ
  alignment_weight : ℚ
  boundary_radius : ℚ
  boundary_weight : ℚ
  max_speed : ℚ
  max_force : ℚ
  speed_limit : ℚ
  use_obstacles : Bool
  use_agent_cbf : Bool
  agent_safe_distance : ℚ
  cbf_neighbor_radius : ℚ
  lambda1 : ℚ
  lambda2 : ℚ
  delta_theta : ℚ
  delta2_star : ℚ
  use_moving_obstacle_terms : Bool
  two_pass : Bool
  u_min : Vec3
  u_max : Vec3
  slack_weight : ℚ
  slack_max : ℚ
  smooth_eps : ℚ
  qp_iters : ℕ
  obstacles : List ObstaclePoly

/-- `SafeFlockAlphaParams::default()` (`DEFAULT_QP_ITERS = 14`). -/
def SafeFlockAlphaParams.default : SafeFlockAlphaParams :=
  { neighbor_radius := 13 / 5
    desired_distance := 7 / 5
    sigma_eps := 1 / 10
    bump_h := 1 / 5
    phi_a := 5
    phi_b := 5
    alpha_weight := 1
    alignment_weight := 13 / 20
    boundary_radius := 6
    boundary_weight := 4 / 5
    max_speed := 12 / 5
    max_force := 8 / 5
    speed_limit := 2
    use_obstacles := true
    use_agent_cbf := true
    agent_safe_distance := 9 / 10
    cbf_neighbor_radius := 13 / 5
    lambda1 := 2
    lambda2 := 2
    delta_theta := 1 / 5
    delta2_star := 0
    use_moving_obstacle_terms := true
    two_pass := false
    u_min := ⟨-6, -6, -6⟩
    u_max := ⟨6, 6, 6⟩
    slack_weight := 50
    slack_max := 50
    smooth_eps := 1 / 100
    qp_iters := 14
    obstacles := paper_obstacles }

/-- `SafeFlockAlphaState` (`#[derive(Default)]`). -/
structure SafeFlockAlphaState where
  u_nom : List Vec3
  u_safe : List Vec3
  slack : List ℚ
  active : List ℚ
  total : List ℚ

def SafeFlockAlphaState.empty : SafeFlockAlphaState :=
  { u_nom := [], u_safe := [], slack := [], active := [], total := [] }

/-- `Flocking` (stateless — params only). -/
structure Flocking where
  params : FlockParams

/-- `FlockingAlpha` (stateless — params only). -/
structure FlockingAlpha where
  params : FlockAlphaParams

/-- `SafeFlockingAlpha`. -/
structure SafeFlockingAlpha where
  params : SafeFlockAlphaParams
  state : SafeFlockAlphaState

/-! ### Engine and the algorithm catalog (`src/engine.rs`) -/

def MODEL_RING : String := "ring-swarm"

def MODEL_LATTICE : String := "lattice-swarm"

def MODEL_QUADROTOR : String := "quadrotor-swarm"

def MODEL_FROM_STATES : String := "from-states"

def ALGO_NONE : String := "none"

def ALGO_FLOCKING : String := "flocking"

def ALGO_FLOCKING_ALPHA : String := "flocking-alpha"

def ALGO_FORMATION_ECBF : String := "formation-ecbf"

def ALGO_SAFE_FLOCKING_ALPHA : String := "safe-flocking-alpha"

/-- `AlgorithmInfo` catalog entry. -/
structure AlgorithmInfo where
  id : String
  name : String
  description : String
  compatible_models : List String

/-- `algorithm_catalog()`. -/
def algorithm_catalog : List AlgorithmInfo :=
  [{ id := ALGO_NONE,
     name := "No forces",
     description := "Integrate with zero external forces.",
     compatible_models := [ MODEL_RING, MODEL_LATTICE, MODEL_FROM_STATES] },
   { id := ALGO_FLOCKING,
     name := "Flocking",
     description := "Cucker-Smale style flocking field with cohesion/alignment/separation.",
     compatible_models := [ MODEL_RING, MODEL_LATTICE, MODEL_FROM_STATES] },
   { id := ALGO_FLOCKING_ALPHA,
     name := "Flocking alpha-lattice",
     description := "Alpha-lattice shaping + velocity consensus (Olfati-Saber style).",
     compatible_models := [ MODEL_RING, MODEL_LATTICE, MODEL_FROM_STATES] },
   { id := ALGO_FORMATION_ECBF,
     name := "Fixed-time formation + ECBF",
     description := "Fixed-time formation tracking with robust ECBF obstacle avoidance.",
     compatible_models := [ MODEL_RING, MODEL_LATTICE, MODEL_QUADROTOR, MODEL_FROM_STATES] },
   { id := ALGO_SAFE_FLOCKING_ALPHA,
     name := "Safe flocking (alpha + CBF-QP)",
     description := "Alpha-lattice nominal flocking filtered by CBF-QP (obstacles + inter-agent).",
     compatible_models := [ MODEL_RING, MODEL_LATTICE, MODEL_FROM_STATES] }]

/-- `AlgorithmKind`: the engine's controller sum type. -/
inductive AlgorithmKind where
  | none
  | flocking (algo : Flocking)
  | flockingAlpha (algo : FlockingAlpha)
  | formationEcbf (algo : FormationEcbf)
  | safeFlockingAlpha (algo : SafeFlockingAlpha)

/-- `normalize_algorithm_id`: catalog membership, returning the interned
id. -/
def normalize_algorithm_id (id : String) : Option String :=
  if id = ALGO_NONE then some ALGO_NONE
  else if id = ALGO_FLOCKING then some ALGO_FLOCKING
  else if id = ALGO_FLOCKING_ALPHA then some ALGO_FLOCKING_ALPHA
  else if id = ALGO_FORMATION_ECBF then some ALGO_FORMATION_ECBF
  else if id = ALGO_SAFE_FLOCKING_ALPHA then some ALGO_SAFE_FLOCKING_ALPHA
  else none

/-- The engine's error cases; the source returns `format!`ted `String`s,
abstracted here by which format was used. -/
inductive EngineError where
  | unknownAlgorithm (id : String)
  | incompatible (id model_id : String)
deriving DecidableEq, Repr

/-- `build_algorithm(id, model_id)`: reject ids outside the compatibility
set of the current model, otherwise construct a freshly-initialized
(default-parameter, empty-state) controller. -/
def build_algorithm (id model_id : String) : Except EngineError AlgorithmKind :=
  let compatible :=
    ((algorithm_catalog.find? fun a => a.id == id).map
        fun a => a.compatible_models.contains model_id).getD false
  if !compatible then .error (.incompatible id model_id)
  else if id = ALGO_NONE then .ok .none
  else if id = ALGO_FLOCKING then .ok (.flocking ⟨FlockParams.default⟩)
  else if id = ALGO_FLOCKING_ALPHA then .ok (.flockingAlpha ⟨FlockAlphaParams.default⟩)
  else if id = ALGO_FORMATION_ECBF then
    .ok (.formationEcbf (FormationEcbf.new FormationEcbfParams.default))
  else if id = ALGO_SAFE_FLOCKING_ALPHA then
    .ok (.safeFlockingAlpha ⟨SafeFlockAlphaParams.default, SafeFlockAlphaState.empty⟩)
  else .error (.unknownAlgorithm id)

/-- `Engine` (the single `ModelKind::Particles` model is the wrapped
simulator). -/
structure Engine where
  model_id : String
  algorithm_id : String
  model : Simulator
  algorithm : AlgorithmKind
  plane_2d : Bool

/-- `Engine::set_algorithm` (`src/engine.rs` lines 309-316): normalize
the id, build the replacement against the current model id, and only on
success overwrite the algorithm and its id.  The `Result<(), String>` of
the source is modelled as `Except`: in the error case no new engine is
produced, so model, algorithm and all internal state are left exactly as
they were. -/
def Engine.setAlgorithm (e : Engine) (algorithm_id : String) : Except EngineError Engine :=
  match normalize_algorithm_id algorithm_id with
  | Option.none => .error (.unknownAlgorithm algorithm_id)
  | Option.some aid =>
      match build_algorithm aid e.model_id with
      | .error err => .error err
      | .ok algo => .ok { e with algorithm := algo, algorithm_id := aid }

/-- The five catalog algorithm ids, in catalog order. -/
def algorithmIds : List String := algorithm_catalog.map fun a => a.id

/-- The compatibility set of an algorithm id (empty for unknown ids). -/
def compatibleModelsOf (id : String) : List String :=
  ((algorithm_catalog.find? fun a => a.id == id).map fun a => a.compatible_models).getD []

/-- The freshly-initialized controller `set_algorithm` installs on
success: default parameters, empty internal state. -/
def freshAlgorithm (id : String) : AlgorithmKind :=
  if id = ALGO_FLOCKING then .flocking ⟨FlockParams.default⟩
  else if id = ALGO_FLOCKING_ALPHA then .flockingAlpha ⟨FlockAlphaParams.default⟩
  else if id = ALGO_FORMATION_ECBF then
    .formationEcbf (FormationEcbf.new FormationEcbfParams.default)
  else if id = ALGO_SAFE_FLOCKING_ALPHA then
    .safeFlockingAlpha ⟨SafeFlockAlphaParams.default, SafeFlockAlphaState.empty⟩
  else .none

/-- C8: `Engine::set_algorithm(id)` errors exactly when `id` is not one
of the five catalog ids (`unknown algorithm id`) or when it is not in
the compatibility set of the engine's current model id
(`not compatible`); in the error case no assignment happens, so the
current algorithm, its internal state and the model are untouched (the
`Except` value carries no new engine), and on success the algorithm is
replaced by a freshly-initialized default instance of the requested one
while the model and the rest of the engine stay as they were.
Furthermore `formation-ecbf` is the only catalog algorithm whose
compatibility set contains `quadrotor-swarm`. -/
theorem c8_set_algorithm_matrix :
    (∀ (e : Engine) (id : String),
        e.setAlgorithm id =
          if id ∈ algorithmIds then
            if e.model_id ∈ compatibleModelsOf id then
              Except.ok { e with algorithm_id := id, algorithm := freshAlgorithm id }
            else Except.error (.incompatible id e.model_id)
          else Except.error (.unknownAlgorithm id)) ∧
    algorithmIds.filter (fun id => (compatibleModelsOf id).contains MODEL_QUADROTOR) =
      [ALGO_FORMATION_ECBF] := by
  constructor
  · intro e id
    by_cases h0 : id = ALGO_NONE
    · subst h0
      simp only [Engine.setAlgorithm, normalize_algorithm_id, build_algorithm,
        algorithm_catalog, algorithmIds, compatibleModelsOf, freshAlgorithm,
        ALGO_NONE, ALGO_FLOCKING, ALGO_FLOCKING_ALPHA, ALGO_FORMATION_ECBF,
        ALGO_SAFE_FLOCKING_ALPHA, MODEL_RING, MODEL_LATTICE, MODEL_QUADROTOR,
        MODEL_FROM_STATES, List.find?, List.map, List.contains, List.elem]
      norm_num
      by_cases h1 : e.model_id = "ring-swarm" <;>
        by_cases h2 : e.model_id = "lattice-swarm" <;>
          by_cases h3 : e.model_id = "from-states" <;>
            simp [h1, h2, h3]
    by_cases hf : id = ALGO_FLOCKING
    · subst hf
      simp only [Engine.setAlgorithm, normalize_algorithm_id, build_algorithm,
        algorithm_catalog, algorithmIds, compatibleModelsOf, freshAlgorithm,
        ALGO_NONE, ALGO_FLOCKING, ALGO_FLOCKING_ALPHA, ALGO_FORMATION_ECBF,
        ALGO_SAFE_FLOCKING_ALPHA, MODEL_RING, MODEL_LATTICE, MODEL_QUADROTOR,
        MODEL_FROM_STATES, List.find?, List.map, List.contains, List.elem]
      norm_num
      by_cases h1 : e.model_id = "ring-swarm" <;>
        by_cases h2 : e.model_id = "lattice-swarm" <;>
          by_cases h3 : e.model_id = "from-states" <;>
            simp [h1, h2, h3]
    by_cases ha : id = ALGO_FLOCKING_ALPHA
    · subst ha
      simp only [Engine.setAlgorithm, normalize_algorithm_id, build_algorithm,
        algorithm_catalog, algorithmIds, compatibleModelsOf, freshAlgorithm,
        ALGO_NONE, ALGO_FLOCKING, ALGO_FLOCKING_ALPHA, ALGO_FORMATION_ECBF,
        ALGO_SAFE_FLOCKING_ALPHA, MODEL_RING, MODEL_LATTICE, MODEL_QUADROTOR,
        MODEL_FROM_STATES, List.find?, List.map, List.contains, List.elem]
      norm_num
      by_cases h1 : e.model_id = "ring-swarm" <;>
        by_cases h2 : e.model_id = "lattice-swarm" <;>
          by_cases h3 : e.model_id = "from-states" <;>
            simp [h1, h2, h3]
    by_cases he : id = ALGO_FORMATION_ECBF
    · subst he
      simp only [Engine.setAlgorithm, normalize_algorithm_id, build_algorithm,
        algorithm_catalog, algorithmIds, compatibleModelsOf, freshAlgorithm,
        ALGO_NONE, ALGO_FLOCKING, ALGO_FLOCKING_ALPHA, ALGO_FORMATION_ECBF,
        ALGO_SAFE_FLOCKING_ALPHA, MODEL_RING, MODEL_LATTICE, MODEL_QUADROTOR,
        MODEL_FROM_STATES, List.find?, List.map, List.contains, List.elem]
      norm_num
      by_cases h1 : e.model_id = "ring-swarm" <;>
        by_cases h2 : e.model_id = "lattice-swarm" <;>
          by_cases h3 : e.model_id = "quadrotor-swarm" <;>
            by_cases h4 : e.model_id = "from-states" <;>
              simp [h1, h2, h3, h4]
    by_cases hs : id = ALGO_SAFE_FLOCKING_ALPHA
    · subst hs
      simp only [Engine.setAlgorithm, normalize_algorithm_id, build_algorithm,
        algorithm_catalog, algorithmIds, compatibleModelsOf, freshAlgorithm,
        ALGO_NONE, ALGO_FLOCKING, ALGO_FLOCKING_ALPHA, ALGO_FORMATION_ECBF,
        ALGO_SAFE_FLOCKING_ALPHA, MODEL_RING, MODEL_LATTICE, MODEL_QUADROTOR,
        MODEL_FROM_STATES, List.find?, List.map, List.contains, List.elem]
      norm_num
      by_cases h1 : e.model_id = "ring-swarm" <;>
        by_cases h2 : e.model_id = "lattice-swarm" <;>
          by_cases h3 : e.model_id = "from-states" <;>
            simp [h1, h2, h3]
    · have hm : id ∉ algorithmIds := by
        simp only [algorithmIds, algorithm_catalog, List.map, List.mem_cons,
          List.not_mem_nil, or_false, not_or]
        exact ⟨h0, hf, ha, he, hs⟩
      rw [if_neg hm]
      simp only [Engine.setAlgorithm, normalize_algorithm_id]
      rw [if_neg h0, if_neg hf, if_neg ha, if_neg he, if_neg hs]
  · decide

/-- C9: with `leader_paused = true`, the first `leader_state` query
latches the sampled `(p₀, v₀, a₀)` and every later query — at any
simulation time — returns the same triple without touching the
controller state again, so the leader pose is constant from the first
invocation on. -/
theorem c9_leader_latch (cosF sinF : ℚ → ℚ) (piQ : ℚ) (algo : FormationEcbf)
    (t0 t1 : ℚ) (hp : algo.params.leader_paused = true) :
    ((algo.leaderState cosF sinF piQ t0).2.leaderState cosF sinF piQ t1) =
      ((algo.leaderState cosF sinF piQ t0).1, (algo.leaderState cosF sinF piQ t0).2) := by
  cases hh : algo.state.leader_hold with
  | some st => simp only [FormationEcbf.leaderState, hp, hh, if_true]
  | none => simp only [FormationEcbf.leaderState, hp, hh, if_true]

/-- Witness controller for C9: default parameters with the leader
paused. -/
def c9Algo : FormationEcbf :=
  FormationEcbf.new { FormationEcbfParams.default with leader_paused := true }

theorem c9_leader_latch_witness :
    c9Algo.params.leader_paused = true ∧
    ((c9Algo.leaderState (fun _ => 1) (fun _ => 0) 3 0).2.leaderState
        (fun _ => 1) (fun _ => 0) 3 1) =
      ((c9Algo.leaderState (fun _ => 1) (fun _ => 0) 3 0).1,
        (c9Algo.leaderState (fun _ => 1) (fun _ => 0) 3 0).2) :=
  ⟨rfl, c9_leader_latch (fun _ => 1) (fun _ => 0) 3 c9Algo 0 1 rfl⟩
